import Mathlib

/-!
Verification model of the LivePhotoServer repository (Node/Express + filesystem
storage).  The definitions below are a shallow embedding of the data-access and
route-handler code:

* `LivePhotoMetadata` mirrors the record interface in `src/utils/storage.ts`.
* `Store` models the upload root directory: a flag for its existence and the
  list of gallery subdirectories, each holding named files.  A `StoredFile`
  whose `record` field is `some m` models a JSON file whose content parses to
  the metadata record `m`; `record = none` models media bytes.  States in which
  a file named `*_metadata.json` does not parse would make the server respond
  500; such states are outside `Store.WF` and the theorems assume `Store.WF`
  (or the specific facts they need) accordingly.
* `listPhotos`, `getPhoto`, `deletePhoto` embed the three handlers of
  `src/routes/photos.ts` (the gallery-aware version); `listGalleries` and
  `deleteGallery` embed `src/routes/gallery.ts`; `handleUpload` embeds the
  POST handler of `src/routes/upload.ts` (the temp-directory version).
* JavaScript string primitives (`toUpperCase`, `startsWith`, `endsWith`,
  `substring`, the `||` default idiom with `""`/`undefined` falsy, and
  `path.extname`) are modelled on `String.data` character lists.
* External effects are inputs: `dateVal` stands for `new Date(s).getTime()`,
  and `UploadEnv` carries the two `uuidv4()` draws, the server clock, the
  on-disk photo size and the HEIC-conversion outcome.  GPS coordinates
  (`latitude`/`longitude`, JavaScript floats) are omitted from the record:
  no modelled behaviour reads them.
-/

/-- JavaScript `v || dflt` where `v` is a string field that may be absent:
both `undefined` and the empty string are falsy. -/
def jsOr (v : Option String) (dflt : String) : String :=
  match v with
  | none => dflt
  | some s => if s = "" then dflt else s

/-- JavaScript truthiness of an optional string value. -/
def jsTruthy (v : Option String) : Bool :=
  match v with
  | none => false
  | some s => s ≠ ""

/-- Model of JavaScript `s.toUpperCase()` (ASCII, as used by the passwords). -/
def jsToUpper (s : String) : String :=
  ⟨s.data.map Char.toUpper⟩

/-- Model of JavaScript `s.toLowerCase()` (ASCII, as used on filenames). -/
def jsToLower (s : String) : String :=
  ⟨s.data.map Char.toLower⟩

/-- Model of JavaScript `s.startsWith(pre)`. -/
def jsStartsWith (s pre : String) : Bool :=
  decide (pre.data <+: s.data)

/-- Model of JavaScript `s.endsWith(post)`. -/
def jsEndsWith (s post : String) : Bool :=
  decide (post.data <:+ s.data)

/-- Drop the last `n` characters of a string. -/
def jsDropRight (s : String) (n : Nat) : String :=
  ⟨s.data.take (s.data.length - n)⟩

/-- Model of Node's `path.extname`: the part of the name from its last dot on,
`""` when there is no dot or the only dot is the leading character. -/
def extname (s : String) : String :=
  let cs := s.data
  let extRev := cs.reverse.takeWhile (fun c => c ≠ '.')
  if extRev.length = cs.length then ""
  else if extRev.length + 1 = cs.length then ""
  else ⟨'.' :: extRev.reverse⟩

/-- `heicPath.replace(/\.heic$/i, '.jpg')` from `convertHeicToJpeg`:
replace a trailing `.heic` (any case) by `.jpg`, else leave unchanged. -/
def heicToJpegName (s : String) : String :=
  if jsEndsWith (jsToLower s) ".heic" then jsDropRight s 5 ++ ".jpg" else s

/-- The metadata record of one uploaded asset, mirroring the
`LivePhotoMetadata` interface of `src/utils/storage.ts` (GPS floats omitted,
see the header note). -/
structure LivePhotoMetadata where
  id : String
  photoFile : String
  videoFile : String
  photoSize : Nat
  videoSize : Nat
  creationDate : String
  uploadDate : String
  photoUrl : Option String
  videoUrl : Option String
  galleryId : Option String
  galleryName : Option String
  galleryDeletePassword : Option String
  galleryViewPassword : Option String
deriving DecidableEq

/-- One entry of `GET /api/photos/galleries`, mirroring `GalleryInfo`. -/
structure GalleryInfo where
  id : String
  name : String
  photoCount : Nat
  lastUpdated : String
deriving DecidableEq

/-- A file inside a gallery directory: its name, and the metadata record its
content parses to when it is a JSON record file (`none` for media bytes). -/
structure StoredFile where
  name : String
  record : Option LivePhotoMetadata
deriving DecidableEq

/-- One subdirectory of the upload root, in `readdirSync` order. -/
structure GalleryDir where
  name : String
  files : List StoredFile
deriving DecidableEq

/-- The persistent state: whether the upload root directory exists, and its
subdirectories in `readdirSync` order. -/
structure Store where
  rootExists : Bool
  dirs : List GalleryDir
deriving DecidableEq

/-- The `file.endsWith('_metadata.json')` test used by every scan. -/
def isMetadataName (s : String) : Bool :=
  jsEndsWith s "_metadata.json"

/-- The metadata files of a directory together with their parsed records, in
scan order (the code filters on the name suffix and parses each file). -/
def GalleryDir.metadataEntries (d : GalleryDir) : List (String × LivePhotoMetadata) :=
  d.files.filterMap fun f =>
    if isMetadataName f.name then f.record.map (fun m => (f.name, m)) else none

/-- The parsed metadata records of a directory, in scan order. -/
def GalleryDir.metadataRecords (d : GalleryDir) : List LivePhotoMetadata :=
  d.metadataEntries.map Prod.snd

/-- The directories every photo route scans: all subdirectories except the
reserved `.temp` upload directory. -/
def Store.galleryDirs (s : Store) : List GalleryDir :=
  s.dirs.filter fun d => d.name ≠ ".temp"

/-- The full scan used by `GET /api/photos/:id` and `DELETE /api/photos/:id`:
every metadata file of every non-`.temp` directory, as
(directory name, file name, record) triples in scan order. -/
def Store.scanEntries (s : Store) : List (String × String × LivePhotoMetadata) :=
  s.galleryDirs.flatMap fun d => d.metadataEntries.map fun p => (d.name, p.1, p.2)

/-- Well-formedness of a file: a name with the `_metadata.json` suffix holds a
parseable record, any other name holds media bytes. -/
def StoredFile.WF (f : StoredFile) : Prop :=
  (isMetadataName f.name = true) ↔ f.record.isSome = true

/-- Well-formedness of a store: a missing root has no subdirectories,
directory names and file names are unique (it is a filesystem), and every
file is well-formed. -/
def Store.WF (s : Store) : Prop :=
  (s.rootExists = false → s.dirs = []) ∧
  (s.dirs.map GalleryDir.name).Nodup ∧
  ∀ d ∈ s.dirs, (d.files.map StoredFile.name).Nodup ∧ ∀ f ∈ d.files, f.WF

instance (f : StoredFile) : Decidable f.WF := by
  unfold StoredFile.WF; infer_instance

instance (s : Store) : Decidable s.WF := by
  unfold Store.WF; infer_instance

/-- Stable insertion step for the descending sort below. -/
def insertByKeyDesc (key : α → Int) (a : α) : List α → List α
  | [] => [a]
  | b :: l => if key b ≤ key a then a :: b :: l else b :: insertByKeyDesc key a l

/-- Model of Node's stable `Array.prototype.sort` with the comparator
`(a, b) => key(b) - key(a)`: stable descending sort by `key`. -/
def sortByKeyDesc (key : α → Int) : List α → List α
  | [] => []
  | a :: l => insertByKeyDesc key a (sortByKeyDesc key l)

/-- Outcome of a JSON route: a 2xx payload or a `res.status(n).json(...)`
error with its HTTP status and message. -/
inductive ApiResult (α : Type) where
  | ok (value : α)
  | err (status : Nat) (message : String)
deriving DecidableEq

/-- Whether a route outcome is a success payload. -/
def ApiResult.isOk : ApiResult α → Bool
  | .ok _ => true
  | .err _ _ => false

/-- The URL augmentation applied to every returned record:
`photoUrl`/`videoUrl` of the form `/files/<dir>/<file>` spread over the
parsed metadata. -/
def addFileUrls (dirName : String) (m : LivePhotoMetadata) : LivePhotoMetadata :=
  { m with
    photoUrl := some ("/files/" ++ dirName ++ "/" ++ m.photoFile)
    videoUrl := some ("/files/" ++ dirName ++ "/" ++ m.videoFile) }

/-- The collection loop of the listing routes: every metadata record of the
given directories, each augmented with its URLs, in scan order. -/
def collectPhotos (dirs : List GalleryDir) : List LivePhotoMetadata :=
  dirs.flatMap fun d => d.metadataRecords.map (addFileUrls d.name)

/-- The view-password check of the gallery-filtered listing: reads the first
metadata record of the (at most one) matched directory; when that record has
a truthy `galleryViewPassword` it requires a truthy caller password and
compares upper-cased; `none` means the request may proceed. -/
def viewPasswordGate (dirs1 : List GalleryDir) (passwordQ : Option String) :
    Option (ApiResult (List LivePhotoMetadata)) :=
  match dirs1.head? with
  | none => none
  | some d =>
    match d.metadataRecords.head? with
    | none => none
    | some first =>
      match first.galleryViewPassword with
      | none => none
      | some vpw =>
        if vpw = "" then none
        else if jsTruthy passwordQ = false then
          some (.err 401 "Password required")
        else if jsToUpper (passwordQ.getD "") ≠ jsToUpper vpw then
          some (.err 403 "Invalid password")
        else none

/-- `GET /api/photos` (gallery-aware version of `src/routes/photos.ts`):
optional `?gallery=` filter and `?p=` password.  `dateVal` models
`new Date(s).getTime()` for the upload-date sort. -/
def listPhotos (dateVal : String → Int) (s : Store)
    (galleryQ passwordQ : Option String) : ApiResult (List LivePhotoMetadata) :=
  if s.rootExists = false then .ok []
  else if jsTruthy galleryQ then
    match viewPasswordGate (s.galleryDirs.filter fun d => d.name == galleryQ.getD "")
        passwordQ with
    | some r => r
    | none =>
      .ok (sortByKeyDesc (fun m => dateVal m.uploadDate)
        (collectPhotos (s.galleryDirs.filter fun d => d.name == galleryQ.getD "")))
  else
    .ok (sortByKeyDesc (fun m => dateVal m.uploadDate) (collectPhotos s.galleryDirs))

/-- The id test of the lookup routes:
`metadata.id === id || metadata.id.startsWith(id)`. -/
def idMatches (m : LivePhotoMetadata) (q : String) : Bool :=
  m.id == q || jsStartsWith m.id q

/-- `GET /api/photos/:id`: linear scan, first record whose id equals or
starts with the given string, augmented with URLs; 404 otherwise. -/
def getPhoto (s : Store) (q : String) : ApiResult LivePhotoMetadata :=
  if s.rootExists = false then .err 404 "Photo not found"
  else
    match s.scanEntries.find? (fun t => idMatches t.2.2 q) with
    | some t => .ok (addFileUrls t.1 t.2.2)
    | none => .err 404 "Photo not found"

/-- Remove the named files from a directory (`fs.unlinkSync`, tolerating
absence as the code does via `existsSync` guards). -/
def GalleryDir.removeNames (d : GalleryDir) (names : List String) : GalleryDir :=
  { d with files := d.files.filter fun f => !(names.contains f.name) }

/-- Whether a directory holds a file of the given name. -/
def GalleryDir.hasFileNamed (d : GalleryDir) (n : String) : Bool :=
  d.files.any fun f => f.name == n

/-- Remove the named files from the named directory of the store. -/
def Store.removeFileNames (s : Store) (g : String) (names : List String) : Store :=
  { s with dirs := s.dirs.map fun d => if d.name = g then d.removeNames names else d }

/-- `DELETE /api/photos/:id`: requires a truthy body password, scans for the
first matching record, checks the record's delete password case-insensitively,
then unlinks the photo file, the video file and the record file. -/
def deletePhoto (s : Store) (q : String) (password : Option String) :
    ApiResult String × Store :=
  if jsTruthy password = false then (.err 400 "Password is required", s)
  else if s.rootExists = false then (.err 404 "Photo not found", s)
  else
    match s.scanEntries.find? (fun t => idMatches t.2.2 q) with
    | none => (.err 404 "Photo not found", s)
    | some (g, mdName, m) =>
      if jsTruthy m.galleryDeletePassword = false then
        (.err 403 "Photo does not have a delete password configured", s)
      else if jsToUpper (password.getD "") ≠ jsToUpper (m.galleryDeletePassword.getD "") then
        (.err 403 "Invalid password", s)
      else
        (.ok m.id, s.removeFileNames g [m.photoFile, m.videoFile, mdName])

/-- `new Date(0).toISOString()`, the initial `lastUpdated` of a gallery. -/
def epochIso : String := "1970-01-01T00:00:00.000Z"

/-- The `lastUpdated` loop of the galleries listing: fold over the records,
keeping the upload date whose parsed time is strictly larger. -/
def galleryLastUpdated (dateVal : String → Int) (recs : List LivePhotoMetadata) : String :=
  recs.foldl (fun acc m => if dateVal acc < dateVal m.uploadDate then m.uploadDate else acc)
    epochIso

/-- One entry of the galleries listing: name from the first record
(falling back to the directory name), metadata-file count, latest upload date
(epoch when the directory has no metadata files). -/
def galleryInfoOf (dateVal : String → Int) (d : GalleryDir) : GalleryInfo :=
  let mdNames := d.files.filter fun f => isMetadataName f.name
  match d.metadataRecords.head? with
  | none =>
    { id := d.name, name := d.name, photoCount := mdNames.length, lastUpdated := epochIso }
  | some first =>
    { id := d.name
      name := jsOr first.galleryName d.name
      photoCount := mdNames.length
      lastUpdated := galleryLastUpdated dateVal d.metadataRecords }

/-- `GET /api/photos/galleries`: one entry per non-`.temp` subdirectory,
sorted by `lastUpdated` descending. -/
def listGalleries (dateVal : String → Int) (s : Store) : ApiResult (List GalleryInfo) :=
  if s.rootExists = false then .ok []
  else
    .ok (sortByKeyDesc (fun g => dateVal g.lastUpdated)
      (s.galleryDirs.map (galleryInfoOf dateVal)))

/-- `existsSync` on a gallery path: the directory with that name, if any. -/
def Store.findDir (s : Store) (g : String) : Option GalleryDir :=
  s.dirs.find? fun d => d.name == g

/-- `DELETE /api/gallery/:galleryId` (`src/routes/gallery.ts`): requires a
truthy body password, 404 when the directory is missing or holds no metadata
files, checks the first metadata record's delete password case-insensitively,
then unlinks every file and removes the directory. -/
def deleteGallery (s : Store) (gid : String) (password : Option String) :
    ApiResult String × Store :=
  if jsTruthy password = false then (.err 400 "Password is required", s)
  else
    match s.findDir gid with
    | none => (.err 404 "Gallery not found", s)
    | some d =>
      match (d.files.filter fun f => isMetadataName f.name).head?.bind StoredFile.record with
      | none => (.err 404 "Gallery has no photos", s)
      | some m =>
        if jsTruthy m.galleryDeletePassword = false then
          (.err 403 "Gallery does not have a delete password configured", s)
        else if jsToUpper (password.getD "") ≠ jsToUpper (m.galleryDeletePassword.getD "") then
          (.err 403 "Invalid password", s)
        else
          (.ok gid, { s with dirs := s.dirs.filter fun d2 => d2.name ≠ gid })

/-- Write a file into a directory, overwriting any file of the same name
(the semantics of `renameSync`/`writeFileSync` onto a path). -/
def GalleryDir.putFile (d : GalleryDir) (f : StoredFile) : GalleryDir :=
  { d with files := (d.files.filter fun x => x.name ≠ f.name) ++ [f] }

/-- Write a file into the named directory of the store. -/
def Store.putFile (s : Store) (g : String) (f : StoredFile) : Store :=
  { s with dirs := s.dirs.map fun d => if d.name = g then d.putFile f else d }

/-- `mkdirSync(galleryPath, recursive)` guarded by `existsSync`: create the
gallery directory (and with it the root) when absent. -/
def Store.ensureDir (s : Store) (g : String) : Store :=
  if s.dirs.any fun d => d.name == g then s
  else { rootExists := true, dirs := s.dirs ++ [{ name := g, files := [] }] }

/-- The optional form fields of `POST /api/upload` read by the handler
(GPS fields omitted, see the header note). -/
structure UploadBody where
  id : Option String
  gallery_id : Option String
  gallery_name : Option String
  creation_date : Option String
deriving DecidableEq

/-- The external inputs of one upload request: the two fresh `uuidv4()`
draws, the server clock, the photo's on-disk byte size after the rename, and
the HEIC conversion outcome (`some n`: converted JPEG of `n` bytes;
`none`: the conversion threw). -/
structure UploadEnv where
  freshId : String
  freshRecordId : String
  now : String
  photoDiskSize : Nat
  heicResult : Option Nat
deriving DecidableEq

/-- The `files` object of the 201 upload response. -/
structure UploadFiles where
  photo : String
  video : String
  metadata : String
deriving DecidableEq

/-- The 201 upload response payload. -/
structure UploadResponse where
  id : String
  galleryId : String
  files : UploadFiles
deriving DecidableEq

/-- `const assetId = (req.body.id as string)?.substring(0, 8) ||
uuidv4().substring(0, 8)` — the on-disk filename stem. -/
def uploadAssetId (body : UploadBody) (env : UploadEnv) : String :=
  jsOr (body.id.map fun s => s.take 8) (env.freshId.take 8)

/-- `id: req.body.id || uuidv4()` — the id written into the record. -/
def uploadRecordId (body : UploadBody) (env : UploadEnv) : String :=
  jsOr body.id env.freshRecordId

/-- `gallery_id` with its `'default'` fallback. -/
def uploadGalleryId (body : UploadBody) : String :=
  jsOr body.gallery_id "default"

/-- The photo filename before any conversion:
`assetId ++ "_photo" ++ extname(originalname)`. -/
def uploadPhotoName0 (body : UploadBody) (env : UploadEnv) (pOrig : String) : String :=
  uploadAssetId body env ++ "_photo" ++ extname pOrig

/-- The stored photo filename after the HEIC branch: renamed to `.jpg` when
the name ends in `.heic` (case-insensitively) and the conversion succeeds. -/
def uploadFinalPhotoName (body : UploadBody) (env : UploadEnv) (pOrig : String) : String :=
  let n0 := uploadPhotoName0 body env pOrig
  if jsEndsWith (jsToLower n0) ".heic" then
    match env.heicResult with
    | some _ => heicToJpegName n0
    | none => n0
  else n0

/-- The stored photo byte size after the HEIC branch. -/
def uploadFinalPhotoSize (body : UploadBody) (env : UploadEnv) (pOrig : String) : Nat :=
  let n0 := uploadPhotoName0 body env pOrig
  if jsEndsWith (jsToLower n0) ".heic" then
    match env.heicResult with
    | some jpegSize => jpegSize
    | none => env.photoDiskSize
  else env.photoDiskSize

/-- The stored video filename: `assetId ++ "_video" ++ extname(originalname)`. -/
def uploadVideoName (body : UploadBody) (env : UploadEnv) (vOrig : String) : String :=
  uploadAssetId body env ++ "_video" ++ extname vOrig

/-- The record filename: `assetId ++ "_metadata.json"`. -/
def uploadMetadataName (body : UploadBody) (env : UploadEnv) : String :=
  uploadAssetId body env ++ "_metadata.json"

/-- The metadata record assembled by the handler.  The handler's object
literal has no password fields, so a fresh record carries none. -/
def uploadRecord (body : UploadBody) (env : UploadEnv)
    (pOrig vOrig : String) (videoSize : Nat) : LivePhotoMetadata :=
  { id := uploadRecordId body env
    photoFile := uploadFinalPhotoName body env pOrig
    videoFile := uploadVideoName body env vOrig
    photoSize := uploadFinalPhotoSize body env pOrig
    videoSize := videoSize
    creationDate := jsOr body.creation_date env.now
    uploadDate := env.now
    photoUrl := none
    videoUrl := none
    galleryId := some (uploadGalleryId body)
    galleryName := some (jsOr body.gallery_name "Default Gallery")
    galleryDeletePassword := none
    galleryViewPassword := none }

/-- The 201 response payload of a successful upload. -/
def uploadResponse (body : UploadBody) (env : UploadEnv) (pOrig vOrig : String) :
    UploadResponse :=
  let g := uploadGalleryId body
  { id := uploadRecordId body env
    galleryId := g
    files :=
      { photo := "/files/" ++ g ++ "/" ++ uploadFinalPhotoName body env pOrig
        video := "/files/" ++ g ++ "/" ++ uploadVideoName body env vOrig
        metadata := "/files/" ++ g ++ "/" ++ uploadMetadataName body env } }

/-- `POST /api/upload` (temp-directory version of `src/routes/upload.ts`):
400 unless both files arrived; otherwise create the gallery directory, move
the photo in, run the HEIC branch (writing the JPEG then unlinking the HEIC
on success, keeping the original on failure), move the video in, and write
the metadata record. -/
def handleUpload (s : Store) (body : UploadBody)
    (photoOrigName videoOrigName : Option String) (videoSize : Nat)
    (env : UploadEnv) : ApiResult UploadResponse × Store :=
  match photoOrigName, videoOrigName with
  | some pOrig, some vOrig =>
    let g := uploadGalleryId body
    let n0 := uploadPhotoName0 body env pOrig
    let s1 := s.ensureDir g
    let s2 := s1.putFile g { name := n0, record := none }
    let s3 :=
      if jsEndsWith (jsToLower n0) ".heic" then
        match env.heicResult with
        | some _ =>
          (s2.putFile g { name := heicToJpegName n0, record := none }).removeFileNames g [n0]
        | none => s2
      else s2
    let s4 := s3.putFile g { name := uploadVideoName body env vOrig, record := none }
    let s5 := s4.putFile g
      { name := uploadMetadataName body env
        record := some (uploadRecord body env pOrig vOrig videoSize) }
    (.ok (uploadResponse body env pOrig vOrig), s5)
  | _, _ => (.err 400 "Both photo and video files are required", s)

/-! ### Concrete states used by the witness and counterexample theorems -/

/-- A record in a password-protected gallery `g`. -/
def recView : LivePhotoMetadata :=
  { id := "asset001-full-token"
    photoFile := "asset001_photo.jpg"
    videoFile := "asset001_video.mov"
    photoSize := 100
    videoSize := 200
    creationDate := "2024-01-01T00:00:00.000Z"
    uploadDate := "2024-01-02T00:00:00.000Z"
    photoUrl := none
    videoUrl := none
    galleryId := some "g"
    galleryName := some "Wedding"
    galleryDeletePassword := some "DEL123"
    galleryViewPassword := some "ABC123" }

/-- A record in gallery `h` with no passwords configured. -/
def recNoDel : LivePhotoMetadata :=
  { id := "asset002-other-token"
    photoFile := "asset002_photo.jpg"
    videoFile := "asset002_video.mov"
    photoSize := 300
    videoSize := 400
    creationDate := "2024-02-01T00:00:00.000Z"
    uploadDate := "2024-02-02T00:00:00.000Z"
    photoUrl := none
    videoUrl := none
    galleryId := some "h"
    galleryName := some "Open"
    galleryDeletePassword := none
    galleryViewPassword := none }

/-- The password-protected gallery directory. -/
def dirG : GalleryDir :=
  { name := "g"
    files := [ { name := "asset001_metadata.json", record := some recView }
             , { name := "asset001_photo.jpg", record := none }
             , { name := "asset001_video.mov", record := none } ] }

/-- The unprotected gallery directory. -/
def dirH : GalleryDir :=
  { name := "h"
    files := [ { name := "asset002_metadata.json", record := some recNoDel }
             , { name := "asset002_photo.jpg", record := none }
             , { name := "asset002_video.mov", record := none } ] }

/-- A store with one protected and one unprotected gallery. -/
def stG : Store := { rootExists := true, dirs := [dirG, dirH] }

/-- A store whose only gallery directory holds no records at all. -/
def stEmptyG : Store :=
  { rootExists := true, dirs := [ { name := "emptyg", files := [] } ] }

/-- A store with an existing root and no gallery directories. -/
def stNoDirs : Store := { rootExists := true, dirs := [] }

/-- An upload request carrying no optional fields. -/
def bodyNoId : UploadBody :=
  { id := none, gallery_id := none, gallery_name := none, creation_date := none }

/-- An upload request with a client-supplied id. -/
def bodyWithId : UploadBody :=
  { id := some "client-id-123456"
    gallery_id := some "g"
    gallery_name := some "Wedding"
    creation_date := some "2024-01-01T00:00:00.000Z" }

/-- External inputs for an upload: two distinct fresh tokens, no HEIC work. -/
def envTwoTokens : UploadEnv :=
  { freshId := "aaaaaaaa-1111"
    freshRecordId := "bbbbbbbb-2222"
    now := "2024-01-02T00:00:00.000Z"
    photoDiskSize := 5
    heicResult := none }

/-- External inputs for an upload whose HEIC conversion succeeds (42 bytes). -/
def envHeicOk : UploadEnv :=
  { freshId := "cccccccc-3333"
    freshRecordId := "dddddddd-4444"
    now := "2024-03-01T00:00:00.000Z"
    photoDiskSize := 50
    heicResult := some 42 }

/-- External inputs for an upload whose HEIC conversion throws. -/
def envHeicFail : UploadEnv :=
  { freshId := "cccccccc-3333"
    freshRecordId := "dddddddd-4444"
    now := "2024-03-01T00:00:00.000Z"
    photoDiskSize := 50
    heicResult := none }

/-- Whether the named gallery directory of the store holds a file of the
given name (false when the directory itself is absent). -/
def Store.dirHasFile (s : Store) (g n : String) : Bool :=
  match s.findDir g with
  | some d => d.hasFileNamed n
  | none => false

/-- Specification-side check: a response record equals some stored record of
the store augmented with URLs, with both password fields carried over
verbatim. -/
def recordMatchesSource (s : Store) (x : LivePhotoMetadata) : Bool :=
  s.galleryDirs.any fun d => d.metadataRecords.any fun m =>
    addFileUrls d.name m == x &&
    x.galleryViewPassword == m.galleryViewPassword &&
    x.galleryDeletePassword == m.galleryDeletePassword

/-! ### Helper lemmas -/

theorem mem_insertByKeyDesc {key : α → Int} {a x : α} {l : List α} :
    x ∈ insertByKeyDesc key a l ↔ x = a ∨ x ∈ l := by
  induction l with
  | nil => simp [insertByKeyDesc]
  | cons b t ih =>
    simp only [insertByKeyDesc]
    split
    · simp
    · simp only [List.mem_cons, ih]
      tauto

theorem mem_sortByKeyDesc {key : α → Int} {x : α} {l : List α} :
    x ∈ sortByKeyDesc key l ↔ x ∈ l := by
  induction l with
  | nil => simp [sortByKeyDesc]
  | cons a t ih => simp [sortByKeyDesc, mem_insertByKeyDesc, ih]

theorem jsStartsWith_eq_true {s pre : String} :
    jsStartsWith s pre = true ↔ pre.data <+: s.data := by
  simp [jsStartsWith]

theorem jsEndsWith_eq_true {s post : String} :
    jsEndsWith s post = true ↔ post.data <:+ s.data := by
  simp [jsEndsWith]

theorem append_ne_of_head_ne {a u v : String} (h : u.data.head? ≠ v.data.head?) :
    a ++ u ≠ a ++ v := by
  intro he
  apply h
  have hd : (a ++ u).data = (a ++ v).data := by rw [he]
  rw [String.data_append, String.data_append] at hd
  rw [List.append_cancel_left hd]

theorem string_ne_of_length_ne {u v : String} (h : u.data.length ≠ v.data.length) :
    u ≠ v := by
  intro he
  exact h (by rw [he])

theorem viewPasswordGate_not_ok {dirs1 : List GalleryDir} {pq : Option String}
    {r : ApiResult (List LivePhotoMetadata)}
    (h : viewPasswordGate dirs1 pq = some r) : r.isOk = false := by
  unfold viewPasswordGate at h
  split at h
  · simp at h
  · split at h
    · simp at h
    · split at h
      · simp at h
      · split at h
        · simp at h
        · split at h
          · cases h; rfl
          · split at h
            · cases h; rfl
            · simp at h

theorem list_append_cons_ne {a : List Char} {c : Char} {t1 t2 : List Char}
    (h : t1.head? ≠ t2.head?) : a ++ (c :: t1) ≠ a ++ (c :: t2) := by
  intro he
  have h2 := List.append_cancel_left he
  injection h2 with _ h3
  exact h (by rw [h3])

theorem string_ne_of_data_forms {u v : String} {a t1 t2 : List Char} {c : Char}
    (hu : u.data = a ++ (c :: t1)) (hv : v.data = a ++ (c :: t2))
    (h : t1.head? ≠ t2.head?) : u ≠ v := by
  intro he
  apply list_append_cons_ne h
  rw [← hu, ← hv, he]

theorem contains_singleton (a b : String) : [a].contains b = (b == a) := by
  cases hb : b == a <;> simp [List.contains, List.elem, hb]

theorem photoName0_data (body : UploadBody) (env : UploadEnv) (pOrig : String) :
    (uploadPhotoName0 body env pOrig).data =
      (uploadAssetId body env).data ++ ('_' :: ("photo".data ++ (extname pOrig).data)) := by
  unfold uploadPhotoName0
  rw [String.data_append, String.data_append, List.append_assoc]
  rfl

theorem videoName_data (body : UploadBody) (env : UploadEnv) (vOrig : String) :
    (uploadVideoName body env vOrig).data =
      (uploadAssetId body env).data ++ ('_' :: ("video".data ++ (extname vOrig).data)) := by
  unfold uploadVideoName
  rw [String.data_append, String.data_append, List.append_assoc]
  rfl

theorem metadataName_data (body : UploadBody) (env : UploadEnv) :
    (uploadMetadataName body env).data =
      (uploadAssetId body env).data ++ ('_' :: "metadata.json".data) := by
  unfold uploadMetadataName
  rw [String.data_append]

theorem heicName_data (body : UploadBody) (env : UploadEnv) (pOrig : String)
    (h : jsEndsWith (jsToLower (uploadPhotoName0 body env pOrig)) ".heic" = true) :
    (heicToJpegName (uploadPhotoName0 body env pOrig)).data =
      (uploadAssetId body env).data ++
        ('_' :: (List.take (extname pOrig).data.length
          ("photo".data ++ (extname pOrig).data) ++ ".jpg".data)) := by
  unfold heicToJpegName
  rw [if_pos h]
  rw [String.data_append]
  unfold jsDropRight
  rw [photoName0_data]
  have hlen : ((uploadAssetId body env).data ++
      ('_' :: ("photo".data ++ (extname pOrig).data))).length =
      (uploadAssetId body env).data.length + (6 + (extname pOrig).data.length) := by
    simp [List.length_append]
    omega
  rw [hlen]
  have hsub : (uploadAssetId body env).data.length + (6 + (extname pOrig).data.length) - 5 =
      (uploadAssetId body env).data.length + ((extname pOrig).data.length + 1) := by
    omega
  rw [hsub]
  rw [List.take_append, List.take_succ_cons, List.append_assoc]
  rfl

theorem photoName0_ne_videoName (body : UploadBody) (env : UploadEnv) (pOrig vOrig : String) :
    uploadPhotoName0 body env pOrig ≠ uploadVideoName body env vOrig := by
  refine string_ne_of_data_forms (photoName0_data body env pOrig)
    (videoName_data body env vOrig) ?_
  rw [show ("photo".data ++ (extname pOrig).data).head? = some 'p' from rfl,
    show ("video".data ++ (extname vOrig).data).head? = some 'v' from rfl]
  decide

theorem photoName0_ne_metadataName (body : UploadBody) (env : UploadEnv) (pOrig : String) :
    uploadPhotoName0 body env pOrig ≠ uploadMetadataName body env := by
  refine string_ne_of_data_forms (photoName0_data body env pOrig)
    (metadataName_data body env) ?_
  rw [show ("photo".data ++ (extname pOrig).data).head? = some 'p' from rfl,
    show ("metadata.json".data).head? = some 'm' from rfl]
  decide

theorem take_photo_jpg_head (k : Nat) (l : List Char) :
    ((List.take k ('p' :: l)) ++ ".jpg".data).head? = some 'p' ∨
    ((List.take k ('p' :: l)) ++ ".jpg".data).head? = some '.' := by
  cases k
  · right; rfl
  · left; rfl

theorem heicName_ne_videoName (body : UploadBody) (env : UploadEnv) (pOrig vOrig : String)
    (h : jsEndsWith (jsToLower (uploadPhotoName0 body env pOrig)) ".heic" = true) :
    heicToJpegName (uploadPhotoName0 body env pOrig) ≠ uploadVideoName body env vOrig := by
  refine string_ne_of_data_forms (heicName_data body env pOrig h)
    (videoName_data body env vOrig) ?_
  rw [show ("video".data ++ (extname vOrig).data).head? = some 'v' from rfl]
  have hbr : (List.take (extname pOrig).data.length
      ("photo".data ++ (extname pOrig).data) ++ ".jpg".data).head? =
      (List.take (extname pOrig).data.length
        ('p' :: ("hoto".data ++ (extname pOrig).data)) ++ ".jpg".data).head? := rfl
  rw [hbr]
  rcases take_photo_jpg_head (extname pOrig).data.length
      ("hoto".data ++ (extname pOrig).data) with hh | hh <;>
    rw [hh] <;> decide

theorem heicName_ne_metadataName (body : UploadBody) (env : UploadEnv) (pOrig : String)
    (h : jsEndsWith (jsToLower (uploadPhotoName0 body env pOrig)) ".heic" = true) :
    heicToJpegName (uploadPhotoName0 body env pOrig) ≠ uploadMetadataName body env := by
  refine string_ne_of_data_forms (heicName_data body env pOrig h)
    (metadataName_data body env) ?_
  rw [show ("metadata.json".data).head? = some 'm' from rfl]
  have hbr : (List.take (extname pOrig).data.length
      ("photo".data ++ (extname pOrig).data) ++ ".jpg".data).head? =
      (List.take (extname pOrig).data.length
        ('p' :: ("hoto".data ++ (extname pOrig).data)) ++ ".jpg".data).head? := rfl
  rw [hbr]
  rcases take_photo_jpg_head (extname pOrig).data.length
      ("hoto".data ++ (extname pOrig).data) with hh | hh <;>
    rw [hh] <;> decide

theorem heicName_ne_photoName0 (body : UploadBody) (env : UploadEnv) (pOrig : String)
    (h : jsEndsWith (jsToLower (uploadPhotoName0 body env pOrig)) ".heic" = true) :
    heicToJpegName (uploadPhotoName0 body env pOrig) ≠ uploadPhotoName0 body env pOrig := by
  apply string_ne_of_length_ne
  rw [heicName_data body env pOrig h, photoName0_data body env pOrig]
  simp [List.length_append, List.length_take]
  omega

theorem findDir_putFile (s : Store) (g : String) (f : StoredFile) :
    (s.putFile g f).findDir g = (s.findDir g).map fun d => d.putFile f := by
  unfold Store.putFile Store.findDir
  rw [List.find?_map]
  have hcomp : ((fun d : GalleryDir => d.name == g) ∘
      fun d => if d.name = g then d.putFile f else d) =
      fun d : GalleryDir => d.name == g := by
    funext d
    by_cases h : d.name = g
    · simp [Function.comp, h, GalleryDir.putFile]
    · simp [Function.comp, h]
  rw [hcomp]
  cases hfd : s.dirs.find? fun d => d.name == g with
  | none => rfl
  | some d0 =>
    have hname : d0.name = g := by
      have h1 := List.find?_some hfd
      simpa using h1
    simp [hname]

theorem findDir_removeFileNames (s : Store) (g : String) (names : List String) :
    (s.removeFileNames g names).findDir g =
      (s.findDir g).map fun d => d.removeNames names := by
  unfold Store.removeFileNames Store.findDir
  rw [List.find?_map]
  have hcomp : ((fun d : GalleryDir => d.name == g) ∘
      fun d => if d.name = g then d.removeNames names else d) =
      fun d : GalleryDir => d.name == g := by
    funext d
    by_cases h : d.name = g
    · simp [Function.comp, h, GalleryDir.removeNames]
    · simp [Function.comp, h]
  rw [hcomp]
  cases hfd : s.dirs.find? fun d => d.name == g with
  | none => rfl
  | some d0 =>
    have hname : d0.name = g := by
      have h1 := List.find?_some hfd
      simpa using h1
    simp [hname]

theorem findDir_ensureDir (s : Store) (g : String) :
    (s.ensureDir g).findDir g =
      some ((s.findDir g).getD { name := g, files := [] }) := by
  unfold Store.ensureDir Store.findDir
  by_cases h : (s.dirs.any fun d => d.name == g) = true
  · rw [if_pos h]
    rw [List.any_eq_true] at h
    obtain ⟨x, hx, hpx⟩ := h
    cases hfd : s.dirs.find? fun d => d.name == g with
    | none =>
      rw [List.find?_eq_none] at hfd
      exact absurd hpx (hfd x hx)
    | some d0 => rfl
  · rw [if_neg h]
    have hnone : s.dirs.find? (fun d => d.name == g) = none := by
      rw [List.find?_eq_none]
      intro x hx hpx
      exact h (List.any_eq_true.mpr ⟨x, hx, hpx⟩)
    rw [List.find?_append, hnone, Option.none_or]
    simp [List.find?_cons]

theorem any_and_beq (l : List StoredFile) (fn n : String) (h : n ≠ fn) :
    (l.any fun a => decide (a.name ≠ fn) && (a.name == n)) =
      l.any fun x => x.name == n := by
  induction l with
  | nil => rfl
  | cons a t ih =>
    rw [List.any_cons, List.any_cons, ih]
    by_cases han : a.name = n
    · have hd : decide (a.name ≠ fn) = true := by
        rw [han]
        exact decide_eq_true h
      rw [hd, Bool.true_and]
    · have hbeq : (a.name == n) = false := beq_eq_false_iff_ne.mpr han
      rw [hbeq, Bool.and_false, Bool.false_or]

theorem hasFileNamed_putFile_self (d : GalleryDir) (f : StoredFile) :
    (d.putFile f).hasFileNamed f.name = true := by
  simp [GalleryDir.putFile, GalleryDir.hasFileNamed, List.any_append]

theorem hasFileNamed_putFile_other (d : GalleryDir) (f : StoredFile) (n : String)
    (h : n ≠ f.name) :
    (d.putFile f).hasFileNamed n = d.hasFileNamed n := by
  have hbeq : (f.name == n) = false := beq_eq_false_iff_ne.mpr (Ne.symm h)
  unfold GalleryDir.putFile GalleryDir.hasFileNamed
  rw [List.any_append, List.any_filter, List.any_cons, List.any_nil, hbeq]
  rw [any_and_beq d.files f.name n h, Bool.or_false, Bool.or_false]

theorem any_name_filter_contains (l : List StoredFile) (names : List String) (n : String) :
    ((l.filter fun f => !(names.contains f.name)).any fun f => f.name == n) =
      ((l.any fun f => f.name == n) && !(names.contains n)) := by
  induction l with
  | nil => rfl
  | cons a t ih =>
    rw [List.filter_cons]
    cases hc : names.contains a.name with
    | true =>
      rw [Bool.not_true, if_neg Bool.false_ne_true, ih, List.any_cons]
      by_cases han : a.name = n
      · have hcn : names.contains n = true := by rw [← han]; exact hc
        rw [hcn, Bool.not_true, Bool.and_false, Bool.and_false]
      · have hbeq : (a.name == n) = false := beq_eq_false_iff_ne.mpr han
        rw [hbeq, Bool.false_or]
    | false =>
      rw [Bool.not_false, if_pos rfl, List.any_cons, List.any_cons, ih]
      by_cases han : a.name = n
      · have hcn : names.contains n = false := by rw [← han]; exact hc
        have htr : (a.name == n) = true := beq_iff_eq.mpr han
        rw [hcn, htr, Bool.not_false, Bool.and_true, Bool.and_true]
      · have hbeq : (a.name == n) = false := beq_eq_false_iff_ne.mpr han
        rw [hbeq, Bool.false_or, Bool.false_or]

theorem hasFileNamed_removeNames (d : GalleryDir) (names : List String) (n : String) :
    (d.removeNames names).hasFileNamed n = (d.hasFileNamed n && !(names.contains n)) := by
  unfold GalleryDir.removeNames GalleryDir.hasFileNamed
  exact any_name_filter_contains d.files names n

theorem assetId_prefix_videoName (body : UploadBody) (env : UploadEnv) (vOrig : String) :
    jsStartsWith (uploadVideoName body env vOrig) (uploadAssetId body env) = true := by
  rw [jsStartsWith_eq_true]
  exact ⟨'_' :: ("video".data ++ (extname vOrig).data), (videoName_data body env vOrig).symm⟩

theorem assetId_prefix_metadataName (body : UploadBody) (env : UploadEnv) :
    jsStartsWith (uploadMetadataName body env) (uploadAssetId body env) = true := by
  rw [jsStartsWith_eq_true]
  exact ⟨'_' :: "metadata.json".data, (metadataName_data body env).symm⟩

theorem assetId_prefix_finalPhotoName (body : UploadBody) (env : UploadEnv) (pOrig : String) :
    jsStartsWith (uploadFinalPhotoName body env pOrig) (uploadAssetId body env) = true := by
  rw [jsStartsWith_eq_true]
  unfold uploadFinalPhotoName
  by_cases hcond : jsEndsWith (jsToLower (uploadPhotoName0 body env pOrig)) ".heic" = true
  · rw [if_pos hcond]
    cases henv : env.heicResult with
    | some jsz => exact ⟨_, (heicName_data body env pOrig hcond).symm⟩
    | none => exact ⟨_, (photoName0_data body env pOrig).symm⟩
  · rw [if_neg hcond]
    exact ⟨_, (photoName0_data body env pOrig).symm⟩

/-! ### Claim theorems -/

/-- C2: for an asset whose record has no `galleryDeletePassword`, the delete
route answers 403 Forbidden for every supplied password and leaves the store
(record file and media files) unchanged, so deletion never succeeds. -/
theorem deletePhoto_unconfigured_password_forbidden
    (s : Store) (q p : String) (g n : String) (m : LivePhotoMetadata)
    (hroot : s.rootExists = true) (hp : p ≠ "")
    (hfind : s.scanEntries.find? (fun t => idMatches t.2.2 q) = some (g, n, m))
    (hnone : m.galleryDeletePassword = none) :
    deletePhoto s q (some p) =
      (.err 403 "Photo does not have a delete password configured", s) := by
  unfold deletePhoto
  rw [hroot, hfind]
  simp [jsTruthy, hp, hnone]

/-- C6: deleting a gallery answers 404 when the directory does not exist and
when it exists without any metadata record; with the correct delete password
it removes the directory (and with it every file) from the store. -/
theorem deleteGallery_notfound_and_success (s : Store) (gid p : String) (hp : p ≠ "") :
    (s.findDir gid = none →
      deleteGallery s gid (some p) = (.err 404 "Gallery not found", s)) ∧
    (∀ d, s.findDir gid = some d →
      d.files.filter (fun f => isMetadataName f.name) = [] →
      deleteGallery s gid (some p) = (.err 404 "Gallery has no photos", s)) ∧
    (∀ d f0 m dpw, s.findDir gid = some d →
      (d.files.filter fun f => isMetadataName f.name).head? = some f0 →
      f0.record = some m →
      m.galleryDeletePassword = some dpw → dpw ≠ "" →
      jsToUpper p = jsToUpper dpw →
      deleteGallery s gid (some p) =
        (.ok gid, { s with dirs := s.dirs.filter fun d2 => d2.name ≠ gid }) ∧
      ∀ d2 ∈ (deleteGallery s gid (some p)).2.dirs, d2.name ≠ gid) := by
  refine ⟨?_, ?_, ?_⟩
  · intro hfind
    unfold deleteGallery
    rw [hfind]
    simp [jsTruthy, hp]
  · intro d hfind hmd
    unfold deleteGallery
    rw [hfind]
    simp [jsTruthy, hp, hmd]
  · intro d f0 m dpw hfind hhead hrec hdp hdpw hmatch
    have hres : deleteGallery s gid (some p) =
        (.ok gid, { s with dirs := s.dirs.filter fun d2 => d2.name ≠ gid }) := by
      unfold deleteGallery
      rw [hfind]
      simp [jsTruthy, hp, hhead, hrec, hdp, hdpw, hmatch]
    refine ⟨hres, ?_⟩
    intro d2 hd2
    rw [hres] at hd2
    simp only [List.mem_filter, decide_eq_true_eq] at hd2
    exact hd2.2

/-- C10: the gallery delete route checks the supplied password only against
the first metadata record of the directory; nothing constrains the remaining
records, and once the first record's password matches, the whole directory is
removed. -/
theorem deleteGallery_first_record_password_only
    (s : Store) (gid p : String) (d : GalleryDir) (fname : String)
    (m : LivePhotoMetadata) (rest : List StoredFile) (dpw : String)
    (hfind : s.findDir gid = some d)
    (hmd : (d.files.filter fun f => isMetadataName f.name) =
      { name := fname, record := some m } :: rest)
    (hdp : m.galleryDeletePassword = some dpw) (hdpw : dpw ≠ "") (hp : p ≠ "") :
    (jsToUpper p = jsToUpper dpw →
      deleteGallery s gid (some p) =
        (.ok gid, { s with dirs := s.dirs.filter fun d2 => d2.name ≠ gid })) ∧
    (jsToUpper p ≠ jsToUpper dpw →
      deleteGallery s gid (some p) = (.err 403 "Invalid password", s)) := by
  constructor
  · intro hmatch
    unfold deleteGallery
    rw [hfind]
    simp [jsTruthy, hp, hmd, hdp, hdpw, hmatch]
  · intro hdiff
    unfold deleteGallery
    rw [hfind]
    simp [jsTruthy, hp, hmd, hdp, hdpw, hdiff]

/-- C1: listing a gallery whose records all carry a view password answers
401 without a supplied password, 403 when the supplied password differs
upper-cased, and the gallery's augmented asset list when it matches. -/
theorem listPhotos_view_password_gate
    (dv : String → Int) (s : Store) (gid : String) (d : GalleryDir) (pw : String)
    (hroot : s.rootExists = true) (hgid : gid ≠ "")
    (hdir : (s.galleryDirs.filter fun x => x.name == gid) = [d])
    (hne : d.metadataRecords ≠ [])
    (hall : ∀ m ∈ d.metadataRecords, m.galleryViewPassword = some pw)
    (hpw : pw ≠ "") :
    listPhotos dv s (some gid) none = .err 401 "Password required" ∧
    (∀ p, p ≠ "" → jsToUpper p ≠ jsToUpper pw →
      listPhotos dv s (some gid) (some p) = .err 403 "Invalid password") ∧
    (∀ p, p ≠ "" → jsToUpper p = jsToUpper pw →
      listPhotos dv s (some gid) (some p) =
        .ok (sortByKeyDesc (fun m => dv m.uploadDate) (collectPhotos [d])) ∧
      ∀ x, x ∈ sortByKeyDesc (fun m => dv m.uploadDate) (collectPhotos [d]) ↔
        ∃ m ∈ d.metadataRecords, addFileUrls d.name m = x) := by
  obtain ⟨first, tl, heq⟩ := List.exists_cons_of_ne_nil hne
  have hfirst : first.galleryViewPassword = some pw :=
    hall first (by rw [heq]; exact List.mem_cons_self _ _)
  refine ⟨?_, ?_, ?_⟩
  · have hgate : viewPasswordGate [d] none = some (.err 401 "Password required") := by
      unfold viewPasswordGate
      simp [heq, hfirst, hpw, jsTruthy]
    unfold listPhotos
    simp [hroot, jsTruthy, hgid, hdir, hgate]
  · intro p hp hne403
    have hgate : viewPasswordGate [d] (some p) = some (.err 403 "Invalid password") := by
      unfold viewPasswordGate
      simp [heq, hfirst, hpw, jsTruthy, hp, hne403]
    unfold listPhotos
    simp [hroot, jsTruthy, hgid, hdir, hgate]
  · intro p hp hmatch
    have hgate : viewPasswordGate [d] (some p) = none := by
      unfold viewPasswordGate
      simp [heq, hfirst, hpw, jsTruthy, hp, hmatch]
    constructor
    · unfold listPhotos
      simp [hroot, jsTruthy, hgid, hdir, hgate]
    · intro x
      rw [mem_sortByKeyDesc]
      simp only [collectPhotos, List.flatMap_cons, List.flatMap_nil, List.append_nil,
        List.mem_map]

/-- C5: the id lookup returns the first scanned record whose id equals or
starts with the query, augmented with URLs, and 404 when no record matches. -/
theorem getPhoto_first_match_or_404 (s : Store) (q : String) (hWF : s.WF) :
    ((∀ t ∈ s.scanEntries, idMatches t.2.2 q = false) →
      getPhoto s q = .err 404 "Photo not found") ∧
    (∀ pre g n m post,
      s.scanEntries = pre ++ (g, n, m) :: post →
      (∀ t ∈ pre, idMatches t.2.2 q = false) →
      idMatches m q = true →
      getPhoto s q = .ok (addFileUrls g m)) := by
  constructor
  · intro hnone
    unfold getPhoto
    by_cases hroot : s.rootExists = false
    · simp [hroot]
    · have hfind : s.scanEntries.find? (fun t => idMatches t.2.2 q) = none := by
        rw [List.find?_eq_none]
        intro t ht
        simp [hnone t ht]
      simp [hroot, hfind]
  · intro pre g n m post hdec hpre hm
    have hroot : s.rootExists = true := by
      cases hsr : s.rootExists
      · have hdirs := hWF.1 hsr
        have hscan : s.scanEntries = [] := by
          unfold Store.scanEntries Store.galleryDirs
          rw [hdirs]
          rfl
        rw [hscan] at hdec
        exact absurd hdec.symm (by simp)
      · rfl
    have hfind : s.scanEntries.find? (fun t => idMatches t.2.2 q) = some (g, n, m) := by
      rw [List.find?_eq_some]
      refine ⟨hm, pre, post, hdec, ?_⟩
      intro a ha
      simp [hpre a ha]
    unfold getPhoto
    simp [hroot, hfind]

/-- C7 (amended part): filtering the asset listing to a gallery directory
with zero records gives the same result as filtering to a nonexistent
gallery id — an empty OK list with no password gate. -/
theorem empty_gallery_asset_listing_like_missing
    (dv : String → Int) (s : Store) (p : Option String) (gid : String) (hgid : gid ≠ "") :
    ((s.galleryDirs.filter fun d => d.name == gid) = [] →
      listPhotos dv s (some gid) p = .ok []) ∧
    (∀ d, (s.galleryDirs.filter fun d2 => d2.name == gid) = [d] →
      d.metadataRecords = [] →
      listPhotos dv s (some gid) p = .ok []) := by
  constructor
  · intro hdir
    unfold listPhotos
    by_cases hroot : s.rootExists = false
    · simp [hroot]
    · have hgate : viewPasswordGate ([] : List GalleryDir) p = none := by
        unfold viewPasswordGate
        rfl
      simp [hroot, jsTruthy, hgid, hdir, hgate, collectPhotos, sortByKeyDesc]
  · intro d hdir hrecs
    unfold listPhotos
    by_cases hroot : s.rootExists = false
    · simp [hroot]
    · have hgate : viewPasswordGate [d] p = none := by
        unfold viewPasswordGate
        simp [hrecs]
      simp [hroot, jsTruthy, hgid, hdir, hgate, collectPhotos, hrecs, sortByKeyDesc]

/-- C8: the unfiltered listing never checks any password: whatever password
is or is not supplied, it answers OK with every record of every non-`.temp`
gallery directory, protected galleries included. -/
theorem listPhotos_unfiltered_no_password_gate (dv : String → Int) (s : Store)
    (p : Option String) (hWF : s.WF) :
    listPhotos dv s none p =
      .ok (sortByKeyDesc (fun m => dv m.uploadDate) (collectPhotos s.galleryDirs)) ∧
    ∀ x, x ∈ sortByKeyDesc (fun m => dv m.uploadDate) (collectPhotos s.galleryDirs) ↔
      ∃ d, d ∈ s.dirs ∧ d.name ≠ ".temp" ∧
        ∃ m ∈ d.metadataRecords, addFileUrls d.name m = x := by
  constructor
  · by_cases hroot : s.rootExists = false
    · have hdirs := hWF.1 hroot
      unfold listPhotos
      simp [hroot, Store.galleryDirs, hdirs, collectPhotos, sortByKeyDesc]
    · unfold listPhotos
      simp [hroot, jsTruthy]
  · intro x
    rw [mem_sortByKeyDesc]
    simp only [collectPhotos, List.mem_flatMap, Store.galleryDirs, List.mem_filter,
      List.mem_map, decide_eq_true_eq]
    constructor
    · rintro ⟨d, ⟨hd, hnt⟩, m, hm, hx⟩
      exact ⟨d, hd, hnt, m, hm, hx⟩
    · rintro ⟨d, hd, hnt, m, hm, hx⟩
      exact ⟨d, ⟨hd, hnt⟩, m, hm, hx⟩

theorem recordMatchesSource_of_mem {s : Store} {d : GalleryDir} {m : LivePhotoMetadata}
    (hd : d ∈ s.galleryDirs) (hm : m ∈ d.metadataRecords) :
    recordMatchesSource s (addFileUrls d.name m) = true := by
  unfold recordMatchesSource
  rw [List.any_eq_true]
  refine ⟨d, hd, ?_⟩
  rw [List.any_eq_true]
  refine ⟨m, hm, ?_⟩
  simp [addFileUrls]

theorem listPhotos_ok_sources {dv : String → Int} {s : Store}
    {gq pq : Option String} {photos : List LivePhotoMetadata}
    (h : listPhotos dv s gq pq = .ok photos) :
    ∀ x ∈ photos, recordMatchesSource s x = true := by
  unfold listPhotos at h
  split at h
  · simp only [ApiResult.ok.injEq] at h
    subst h
    intro x hx
    simp at hx
  · split at h
    · split at h
      · rename_i r hgate
        have hko := viewPasswordGate_not_ok hgate
        rw [h] at hko
        simp [ApiResult.isOk] at hko
      · simp only [ApiResult.ok.injEq] at h
        subst h
        intro x hx
        rw [mem_sortByKeyDesc] at hx
        rw [collectPhotos, List.mem_flatMap] at hx
        obtain ⟨d, hd, hxm⟩ := hx
        rw [List.mem_map] at hxm
        obtain ⟨m, hm, hxm⟩ := hxm
        rw [← hxm]
        exact recordMatchesSource_of_mem (List.mem_of_mem_filter hd) hm
    · simp only [ApiResult.ok.injEq] at h
      subst h
      intro x hx
      rw [mem_sortByKeyDesc] at hx
      rw [collectPhotos, List.mem_flatMap] at hx
      obtain ⟨d, hd, hxm⟩ := hx
      rw [List.mem_map] at hxm
      obtain ⟨m, hm, hxm⟩ := hxm
      rw [← hxm]
      exact recordMatchesSource_of_mem hd hm

/-- C9: every record returned by the listing and by the id lookup is a stored
record augmented with URLs, with the stored `galleryViewPassword` and
`galleryDeletePassword` carried into the response verbatim. -/
theorem responses_include_password_fields :
    (∀ (dv : String → Int) (s : Store) (gq pq : Option String) photos,
      listPhotos dv s gq pq = .ok photos →
      ∀ x ∈ photos, recordMatchesSource s x = true) ∧
    (∀ (s : Store) (q : String) (r : LivePhotoMetadata),
      getPhoto s q = .ok r → recordMatchesSource s r = true) := by
  constructor
  · intro dv s gq pq photos h
    exact listPhotos_ok_sources h
  · intro s q r h
    unfold getPhoto at h
    split at h
    · cases h
    · split at h
      · rename_i t hfind
        simp only [ApiResult.ok.injEq] at h
        subst h
        have ht := List.mem_of_find?_eq_some hfind
        rw [Store.scanEntries, List.mem_flatMap] at ht
        obtain ⟨d, hd, htm⟩ := ht
        rw [List.mem_map] at htm
        obtain ⟨pr, hpr, hte⟩ := htm
        have h1 : t.1 = d.name := by rw [← hte]
        have h2 : t.2.2 = pr.2 := by rw [← hte]
        rw [h1, h2]
        refine recordMatchesSource_of_mem hd ?_
        rw [GalleryDir.metadataRecords, List.mem_map]
        exact ⟨pr, hpr, rfl⟩
      · cases h

/-- C7 (counterexample): a gallery directory with zero records is visible in
the galleries listing (photoCount 0), while a nonexistent gallery is not —
the two are distinguishable by a read operation. -/
theorem empty_gallery_listed_in_galleries :
    (stEmptyG.dirs.all fun d => d.metadataRecords.isEmpty) = true ∧
    listGalleries (fun _ => 0) stEmptyG =
      .ok [ { id := "emptyg", name := "emptyg", photoCount := 0, lastUpdated := epochIso } ] ∧
    listGalleries (fun _ => 0) stNoDirs = .ok [] := by
  decide

/-- C3 (counterexample): an upload with no client-supplied id succeeds, yet
the stored filenames use the first fresh token while the record's id is the
second fresh token, so no stored filename starts with the record id's first
8 characters. -/
theorem upload_filename_record_id_mismatch :
    (handleUpload stNoDirs bodyNoId (some "live.jpg") (some "live.mov") 7
      envTwoTokens).1.isOk = true ∧
    (handleUpload stNoDirs bodyNoId (some "live.jpg") (some "live.mov") 7
      envTwoTokens).2.scanEntries =
      [("default", "aaaaaaaa_metadata.json",
        uploadRecord bodyNoId envTwoTokens "live.jpg" "live.mov" 7)] ∧
    jsStartsWith (uploadRecord bodyNoId envTwoTokens "live.jpg" "live.mov" 7).photoFile
      ((uploadRecord bodyNoId envTwoTokens "live.jpg" "live.mov" 7).id.take 8) = false ∧
    jsStartsWith (uploadRecord bodyNoId envTwoTokens "live.jpg" "live.mov" 7).videoFile
      ((uploadRecord bodyNoId envTwoTokens "live.jpg" "live.mov" 7).id.take 8) = false ∧
    jsStartsWith (uploadMetadataName bodyNoId envTwoTokens)
      ((uploadRecord bodyNoId envTwoTokens "live.jpg" "live.mov" 7).id.take 8) = false := by
  decide

/-! ### Witnesses -/

theorem listPhotos_view_password_gate_witness :
    listPhotos (fun _ => 0) stG (some "g") none = .err 401 "Password required" ∧
    listPhotos (fun _ => 0) stG (some "g") (some "WRONG") = .err 403 "Invalid password" ∧
    listPhotos (fun _ => 0) stG (some "g") (some "abc123") =
      .ok (sortByKeyDesc (fun _ => (0 : Int)) (collectPhotos [dirG])) := by
  have h := listPhotos_view_password_gate (fun _ => 0) stG "g" dirG "ABC123"
    (by decide) (by decide) (by decide) (by decide) (by decide) (by decide)
  exact ⟨h.1, h.2.1 "WRONG" (by decide) (by decide),
    (h.2.2 "abc123" (by decide) (by decide)).1⟩

theorem deletePhoto_unconfigured_password_forbidden_witness :
    deletePhoto stG "asset002" (some "anything") =
      (.err 403 "Photo does not have a delete password configured", stG) :=
  deletePhoto_unconfigured_password_forbidden stG "asset002" "anything" "h"
    "asset002_metadata.json" recNoDel (by decide) (by decide) (by decide) (by decide)

theorem getPhoto_first_match_or_404_witness :
    getPhoto stG "asset001" = .ok (addFileUrls "g" recView) ∧
    getPhoto stG "nomatch" = .err 404 "Photo not found" := by
  refine ⟨?_, ?_⟩
  · exact (getPhoto_first_match_or_404 stG "asset001" (by decide)).2 [] "g"
      "asset001_metadata.json" recView [("h", "asset002_metadata.json", recNoDel)]
      (by decide) (by decide) (by decide)
  · exact (getPhoto_first_match_or_404 stG "nomatch" (by decide)).1 (by decide)

theorem deleteGallery_notfound_and_success_witness :
    deleteGallery stG "nope" (some "DEL123") = (.err 404 "Gallery not found", stG) ∧
    deleteGallery stEmptyG "emptyg" (some "DEL123") =
      (.err 404 "Gallery has no photos", stEmptyG) ∧
    deleteGallery stG "g" (some "del123") =
      (.ok "g", { rootExists := true, dirs := [dirH] }) := by
  have h1 := deleteGallery_notfound_and_success stG "nope" "DEL123" (by decide)
  have h2 := deleteGallery_notfound_and_success stEmptyG "emptyg" "DEL123" (by decide)
  have h3 := deleteGallery_notfound_and_success stG "g" "del123" (by decide)
  refine ⟨h1.1 (by decide),
    h2.2.1 { name := "emptyg", files := [] } (by decide) (by decide), ?_⟩
  have hres := (h3.2.2 dirG { name := "asset001_metadata.json", record := some recView }
    recView "DEL123" (by decide) (by decide) (by decide) (by decide) (by decide)
    (by decide)).1
  rw [hres]
  decide

theorem empty_gallery_asset_listing_like_missing_witness :
    listPhotos (fun _ => 0) stEmptyG (some "emptyg") none = .ok [] ∧
    listPhotos (fun _ => 0) stEmptyG (some "missing") none = .ok [] := by
  have h := empty_gallery_asset_listing_like_missing (fun _ => 0) stEmptyG none "emptyg"
    (by decide)
  have h2 := empty_gallery_asset_listing_like_missing (fun _ => 0) stEmptyG none "missing"
    (by decide)
  exact ⟨h.2 { name := "emptyg", files := [] } (by decide) (by decide), h2.1 (by decide)⟩

theorem listPhotos_unfiltered_no_password_gate_witness :
    listPhotos (fun _ => 0) stG none (some "anything") =
      .ok (sortByKeyDesc (fun _ => (0 : Int)) (collectPhotos stG.galleryDirs)) :=
  (listPhotos_unfiltered_no_password_gate (fun _ => 0) stG (some "anything") (by decide)).1

theorem responses_include_password_fields_witness :
    recordMatchesSource stG (addFileUrls "g" recView) = true :=
  responses_include_password_fields.2 stG "asset001" (addFileUrls "g" recView) (by decide)

/-- C3 (amended): when the client supplies a nonempty id, the record's id is
that id, the filename stem is its first 8 characters, and the photo, video
and metadata filenames all start with the first 8 characters of the record's
id; the upload responds 201. -/
theorem upload_filenames_match_client_id
    (s : Store) (body : UploadBody) (env : UploadEnv) (pOrig vOrig : String)
    (vsz : Nat) (i : String) (hid : body.id = some i) (hi : i ≠ "") :
    (uploadRecord body env pOrig vOrig vsz).id = i ∧
    uploadAssetId body env = i.take 8 ∧
    jsStartsWith (uploadFinalPhotoName body env pOrig) (i.take 8) = true ∧
    jsStartsWith (uploadVideoName body env vOrig) (i.take 8) = true ∧
    jsStartsWith (uploadMetadataName body env) (i.take 8) = true ∧
    (handleUpload s body (some pOrig) (some vOrig) vsz env).1 =
      .ok (uploadResponse body env pOrig vOrig) := by
  have htake : i.take 8 ≠ "" := by
    intro hempty
    apply hi
    apply String.ext
    have hdata : (i.take 8).data = [] := by rw [hempty]
    rw [String.data_take] at hdata
    rcases List.take_eq_nil_iff.mp hdata with h8 | hnil
    · omega
    · rw [hnil]
  have haid : uploadAssetId body env = i.take 8 := by
    unfold uploadAssetId jsOr
    rw [hid]
    simp [htake]
  refine ⟨?_, haid, ?_, ?_, ?_, ?_⟩
  · unfold uploadRecord uploadRecordId jsOr
    rw [hid]
    simp [hi]
  · rw [← haid]
    exact assetId_prefix_finalPhotoName body env pOrig
  · rw [← haid]
    exact assetId_prefix_videoName body env vOrig
  · rw [← haid]
    exact assetId_prefix_metadataName body env
  · rfl

theorem upload_filenames_match_client_id_witness :
    (uploadRecord bodyWithId envTwoTokens "live.jpg" "live.mov" 7).id =
      "client-id-123456" ∧
    uploadAssetId bodyWithId envTwoTokens = ("client-id-123456" : String).take 8 ∧
    jsStartsWith (uploadFinalPhotoName bodyWithId envTwoTokens "live.jpg")
      (("client-id-123456" : String).take 8) = true ∧
    jsStartsWith (uploadVideoName bodyWithId envTwoTokens "live.mov")
      (("client-id-123456" : String).take 8) = true ∧
    jsStartsWith (uploadMetadataName bodyWithId envTwoTokens)
      (("client-id-123456" : String).take 8) = true ∧
    (handleUpload stNoDirs bodyWithId (some "live.jpg") (some "live.mov") 7
      envTwoTokens).1 =
      .ok (uploadResponse bodyWithId envTwoTokens "live.jpg" "live.mov") :=
  upload_filenames_match_client_id stNoDirs bodyWithId envTwoTokens "live.jpg" "live.mov"
    7 "client-id-123456" (by decide) (by decide)

/-- C4: for an upload whose photo filename ends in `.heic` case-insensitively:
on conversion success the stored photo name is the `.jpg` rename, the original
HEIC file is gone from the gallery directory, and `photoSize` is the
converted byte size; on conversion failure the original HEIC file and its
size are kept; the upload responds 201 either way. -/
theorem upload_heic_conversion_branch
    (s : Store) (body : UploadBody) (env : UploadEnv) (pOrig vOrig : String) (vsz : Nat)
    (hheic : jsEndsWith (jsToLower (uploadPhotoName0 body env pOrig)) ".heic" = true) :
    (∀ jsz, env.heicResult = some jsz →
      jsEndsWith (uploadFinalPhotoName body env pOrig) ".jpg" = true ∧
      (uploadRecord body env pOrig vOrig vsz).photoFile =
        heicToJpegName (uploadPhotoName0 body env pOrig) ∧
      (uploadRecord body env pOrig vOrig vsz).photoSize = jsz ∧
      (handleUpload s body (some pOrig) (some vOrig) vsz env).2.dirHasFile
        (uploadGalleryId body) (uploadPhotoName0 body env pOrig) = false ∧
      (handleUpload s body (some pOrig) (some vOrig) vsz env).2.dirHasFile
        (uploadGalleryId body) (heicToJpegName (uploadPhotoName0 body env pOrig)) = true ∧
      (handleUpload s body (some pOrig) (some vOrig) vsz env).1 =
        .ok (uploadResponse body env pOrig vOrig)) ∧
    (env.heicResult = none →
      (uploadRecord body env pOrig vOrig vsz).photoFile = uploadPhotoName0 body env pOrig ∧
      (uploadRecord body env pOrig vOrig vsz).photoSize = env.photoDiskSize ∧
      (handleUpload s body (some pOrig) (some vOrig) vsz env).2.dirHasFile
        (uploadGalleryId body) (uploadPhotoName0 body env pOrig) = true ∧
      (handleUpload s body (some pOrig) (some vOrig) vsz env).1 =
        .ok (uploadResponse body env pOrig vOrig)) := by
  constructor
  · intro jsz henv
    have hsnd : (handleUpload s body (some pOrig) (some vOrig) vsz env).2 =
        (((((s.ensureDir (uploadGalleryId body)).putFile (uploadGalleryId body)
          { name := uploadPhotoName0 body env pOrig, record := none }).putFile
          (uploadGalleryId body)
          { name := heicToJpegName (uploadPhotoName0 body env pOrig),
            record := none }).removeFileNames (uploadGalleryId body)
          [uploadPhotoName0 body env pOrig]).putFile (uploadGalleryId body)
          { name := uploadVideoName body env vOrig, record := none }).putFile
          (uploadGalleryId body)
          { name := uploadMetadataName body env
            record := some (uploadRecord body env pOrig vOrig vsz) } := by
      simp [handleUpload, hheic, henv]
    refine ⟨?_, ?_, ?_, ?_, ?_, rfl⟩
    · unfold uploadFinalPhotoName
      rw [if_pos hheic, henv]
      unfold heicToJpegName
      rw [if_pos hheic]
      rw [jsEndsWith_eq_true]
      exact ⟨(jsDropRight (uploadPhotoName0 body env pOrig) 5).data,
        (String.data_append _ _).symm⟩
    · show uploadFinalPhotoName body env pOrig =
        heicToJpegName (uploadPhotoName0 body env pOrig)
      unfold uploadFinalPhotoName
      rw [if_pos hheic, henv]
    · show uploadFinalPhotoSize body env pOrig = jsz
      unfold uploadFinalPhotoSize
      rw [if_pos hheic, henv]
    · unfold Store.dirHasFile
      rw [hsnd, findDir_putFile, findDir_putFile, findDir_removeFileNames,
        findDir_putFile, findDir_putFile, findDir_ensureDir]
      simp only [Option.map_some']
      rw [hasFileNamed_putFile_other _ _ _ (photoName0_ne_metadataName body env pOrig),
        hasFileNamed_putFile_other _ _ _ (photoName0_ne_videoName body env pOrig vOrig),
        hasFileNamed_removeNames, contains_singleton]
      simp
    · unfold Store.dirHasFile
      rw [hsnd, findDir_putFile, findDir_putFile, findDir_removeFileNames,
        findDir_putFile, findDir_putFile, findDir_ensureDir]
      simp only [Option.map_some']
      rw [hasFileNamed_putFile_other _ _ _ (heicName_ne_metadataName body env pOrig hheic),
        hasFileNamed_putFile_other _ _ _
          (heicName_ne_videoName body env pOrig vOrig hheic),
        hasFileNamed_removeNames, contains_singleton]
      have hbeq : (heicToJpegName (uploadPhotoName0 body env pOrig) ==
          uploadPhotoName0 body env pOrig) = false :=
        beq_eq_false_iff_ne.mpr (heicName_ne_photoName0 body env pOrig hheic)
      rw [hbeq, Bool.not_false, Bool.and_true]
      exact hasFileNamed_putFile_self _ _
  · intro henv
    have hsnd : (handleUpload s body (some pOrig) (some vOrig) vsz env).2 =
        (((s.ensureDir (uploadGalleryId body)).putFile (uploadGalleryId body)
          { name := uploadPhotoName0 body env pOrig, record := none }).putFile
          (uploadGalleryId body)
          { name := uploadVideoName body env vOrig, record := none }).putFile
          (uploadGalleryId body)
          { name := uploadMetadataName body env
            record := some (uploadRecord body env pOrig vOrig vsz) } := by
      simp [handleUpload, hheic, henv]
    refine ⟨?_, ?_, ?_, rfl⟩
    · show uploadFinalPhotoName body env pOrig = uploadPhotoName0 body env pOrig
      unfold uploadFinalPhotoName
      rw [if_pos hheic, henv]
    · show uploadFinalPhotoSize body env pOrig = env.photoDiskSize
      unfold uploadFinalPhotoSize
      rw [if_pos hheic, henv]
    · unfold Store.dirHasFile
      rw [hsnd, findDir_putFile, findDir_putFile, findDir_putFile, findDir_ensureDir]
      simp only [Option.map_some']
      rw [hasFileNamed_putFile_other _ _ _ (photoName0_ne_metadataName body env pOrig),
        hasFileNamed_putFile_other _ _ _ (photoName0_ne_videoName body env pOrig vOrig)]
      exact hasFileNamed_putFile_self _ _

theorem upload_heic_conversion_branch_witness :
    (jsEndsWith (uploadFinalPhotoName bodyNoId envHeicOk "live.HEIC") ".jpg" = true ∧
      (uploadRecord bodyNoId envHeicOk "live.HEIC" "live.MOV" 7).photoFile =
        heicToJpegName (uploadPhotoName0 bodyNoId envHeicOk "live.HEIC") ∧
      (uploadRecord bodyNoId envHeicOk "live.HEIC" "live.MOV" 7).photoSize = 42 ∧
      (handleUpload stNoDirs bodyNoId (some "live.HEIC") (some "live.MOV") 7
        envHeicOk).2.dirHasFile (uploadGalleryId bodyNoId)
        (uploadPhotoName0 bodyNoId envHeicOk "live.HEIC") = false ∧
      (handleUpload stNoDirs bodyNoId (some "live.HEIC") (some "live.MOV") 7
        envHeicOk).2.dirHasFile (uploadGalleryId bodyNoId)
        (heicToJpegName (uploadPhotoName0 bodyNoId envHeicOk "live.HEIC")) = true ∧
      (handleUpload stNoDirs bodyNoId (some "live.HEIC") (some "live.MOV") 7
        envHeicOk).1 =
        .ok (uploadResponse bodyNoId envHeicOk "live.HEIC" "live.MOV")) ∧
    ((uploadRecord bodyNoId envHeicFail "live.HEIC" "live.MOV" 7).photoFile =
        uploadPhotoName0 bodyNoId envHeicFail "live.HEIC" ∧
      (uploadRecord bodyNoId envHeicFail "live.HEIC" "live.MOV" 7).photoSize =
        envHeicFail.photoDiskSize ∧
      (handleUpload stNoDirs bodyNoId (some "live.HEIC") (some "live.MOV") 7
        envHeicFail).2.dirHasFile (uploadGalleryId bodyNoId)
        (uploadPhotoName0 bodyNoId envHeicFail "live.HEIC") = true ∧
      (handleUpload stNoDirs bodyNoId (some "live.HEIC") (some "live.MOV") 7
        envHeicFail).1 =
        .ok (uploadResponse bodyNoId envHeicFail "live.HEIC" "live.MOV")) :=
  ⟨(upload_heic_conversion_branch stNoDirs bodyNoId envHeicOk "live.HEIC" "live.MOV" 7
      (by decide)).1 42 rfl,
    (upload_heic_conversion_branch stNoDirs bodyNoId envHeicFail "live.HEIC" "live.MOV" 7
      (by decide)).2 rfl⟩

theorem deleteGallery_first_record_password_only_witness :
    deleteGallery stG "g" (some "DEL123") =
      (.ok "g", { rootExists := true, dirs := [dirH] }) := by
  have h := deleteGallery_first_record_password_only stG "g" "DEL123" dirG
    "asset001_metadata.json" recView [] "DEL123"
    (by decide) (by decide) (by decide) (by decide) (by decide)
  rw [h.1 (by decide)]
  decide
